import Mathlib

/-!
Verification development for the mcp_lambda session relay.

The relay stores inbound messages for a session in a DynamoDB table keyed by
(session_id, timestamp) and serves them to a long-lived SSE stream via a poll
loop.  This file gives a shallow embedding of the relevant parts of
src/server.py and src/cleanup_db.py:

* the store is a list of records; DynamoDB put_item overwrites the record with
  the same primary key, query returns records of one partition in ascending
  sort-key order, and query/scan results are paginated by a page size;
* the HTTP ingress handler handle_post_message, the stream-open validation
  prelude of connect_sse, the per-tick body of poller_loop, cleanup_session,
  wipe_table and the MCPSSEResponse send wrapper are translated as pure
  functions;
* wall-clock readings (time.time, microsecond timestamps) are explicit inputs;
  bytes payloads are modelled as strings (the payloads involved are ASCII).
-/

/-- One DynamoDB item of the mcp-sessions table: primary key
(session_id, timestamp), payload attribute message (src/server.py lines
97-101). -/
structure MRecord where
  session_id : String
  timestamp : Nat
  message : String
deriving DecidableEq, Repr

/-- DynamoDB put_item: inserts the item, overwriting any existing item with
the same primary key (session_id, timestamp).  The store is kept as a list;
readers sort, so list order carries no meaning. -/
def put_item (store : List MRecord) (it : MRecord) : List MRecord :=
  it :: store.filter
    (fun r => !(decide (r.session_id = it.session_id) && decide (r.timestamp = it.timestamp)))

/-- Insert a record into a list sorted by ascending timestamp. -/
def insertByTs (r : MRecord) : List MRecord → List MRecord
  | [] => [r]
  | x :: xs => if r.timestamp ≤ x.timestamp then r :: x :: xs else x :: insertByTs r xs

/-- Sort records by ascending timestamp (DynamoDB query returns the items of a
partition in ascending sort-key order). -/
def sortByTs : List MRecord → List MRecord
  | [] => []
  | r :: rs => insertByTs r (sortByTs rs)

/-- All records of one session, in ascending timestamp order: the logical
result set of query(KeyConditionExpression = Key(session_id).eq(sid))
in cleanup_session (src/server.py lines 260-266). -/
def session_records (sid : String) (store : List MRecord) : List MRecord :=
  sortByTs (store.filter (fun r => decide (r.session_id = sid)))

/-- The poller query (src/server.py lines 168-174):
Key(session_id).eq(sid) and Key(timestamp).gt(cursor), ascending order.
The poller reads a single response page (it does not follow
LastEvaluatedKey), so the result is truncated to the page size psz. -/
def query_items (psz : Nat) (sid : String) (cursor : Nat) (store : List MRecord) :
    List MRecord :=
  (sortByTs (store.filter
    (fun r => decide (r.session_id = sid) && decide (cursor < r.timestamp)))).take psz

/-- DynamoDB pagination of an ordered result set, page size psz: each request
returns up to psz items and a LastEvaluatedKey that resumes right after the
last returned item; the loop in cleanup_session follows it until exhausted
(src/server.py lines 257-273).  On a store unchanged during the loop this
collects successive take/drop chunks.  fuel bounds the number of loop
iterations (each page is nonempty when psz > 0, so fuel = length suffices). -/
def scan_pages (psz : Nat) : Nat → List MRecord → List MRecord
  | 0, _ => []
  | _, [] => []
  | fuel + 1, x :: xs => (x :: xs).take psz ++ scan_pages psz fuel ((x :: xs).drop psz)

/-- src/server.py cleanup_session: paginate through every record of the
session, then batch-delete each collected item by its primary key; if the
query found no items, return without touching the store ("No items to
delete").  psz is the store page size. -/
def cleanup_session (psz : Nat) (sid : String) (store : List MRecord) : List MRecord :=
  let items := scan_pages psz (store.length + 1) (session_records sid store)
  if items.isEmpty then store
  else store.filter (fun r =>
    !(items.any (fun i =>
      decide (i.session_id = r.session_id) && decide (i.timestamp = r.timestamp))))

/-- src/cleanup_db.py wipe_table: a single table.scan() (one page of at most
psz items, LastEvaluatedKey never followed), then batch-delete of the items of
that one page.  The scan enumerates the whole table regardless of session. -/
def wipe_table (psz : Nat) (store : List MRecord) : List MRecord :=
  let items := store.take psz
  store.filter (fun r =>
    !(items.any (fun i =>
      decide (i.session_id = r.session_id) && decide (i.timestamp = r.timestamp))))

/-! ### UUID parsing (python uuid.UUID on the hex argument)

UUID(hex=s) removes every occurrence of "urn:" and "uuid:", strips "{"/"}"
from both ends, removes "-", then requires exactly 32 hexadecimal digits
(int(hex, 16)).  str(uuid) is the lowercase hyphenated 8-4-4-4-12 form.
(int of python also tolerates a sign and digit-separating underscores; those
corner inputs are not modelled — every input used here is a plain digit
string.) -/

/-- Remove every (non-overlapping, left-to-right) occurrence of pat, as
python str.replace(pat, "").  fuel bounds recursion; length of the input
suffices. -/
def dropMatches (pat : List Char) : Nat → List Char → List Char
  | 0, l => l
  | _, [] => []
  | fuel + 1, c :: cs =>
      if pat ≠ [] ∧ (c :: cs).take pat.length = pat then
        dropMatches pat fuel ((c :: cs).drop pat.length)
      else c :: dropMatches pat fuel cs

/-- A curly brace, written via escapes. -/
def isBrace (c : Char) : Bool := decide (c = '\x7b') || decide (c = '\x7d')

/-- python str.strip with the brace character set: drop braces from both
ends. -/
def stripBraces (l : List Char) : List Char :=
  ((l.dropWhile isBrace).reverse.dropWhile isBrace).reverse

/-- Hexadecimal digit test. -/
def isHexChar (c : Char) : Bool :=
  c.isDigit || (decide ('a' ≤ c) && decide (c ≤ 'f')) || (decide ('A' ≤ c) && decide (c ≤ 'F'))

/-- The normalization pipeline of uuid.UUID.__init__ on the hex argument. -/
def uuid_normalize (s : List Char) : List Char :=
  let s1 := dropMatches "urn:".toList (s.length + 1) s
  let s2 := dropMatches "uuid:".toList (s1.length + 1) s1
  (stripBraces s2).filter (fun c => !(decide (c = '-')))

/-- uuid.UUID(hex=s): some canonical 32-digit lowercase form on success,
none when ValueError is raised. -/
def uuidParse (s : String) : Option (List Char) :=
  let h := uuid_normalize s.toList
  if decide (h.length = 32) && h.all isHexChar then some (h.map Char.toLower) else none

/-- str(uuid): lowercase hyphenated 8-4-4-4-12 rendering of the 32 digits. -/
def uuid_str (h : List Char) : String :=
  String.mk (h.take 8 ++ '-' :: ((h.drop 8).take 4) ++ '-' :: ((h.drop 12).take 4)
    ++ '-' :: ((h.drop 16).take 4) ++ '-' :: h.drop 20)

/-! ### JSON well-formedness (python json.loads on the POST body)

handle_post_message only uses json.loads to validate the body (the stored
message is json.dumps of the parsed document, a canonical re-encoding of the
same payload, which the relay otherwise treats as opaque; it is modelled as
the body itself).  The validator below follows the JSON grammar; inside
strings an escape accepts any following character (python is stricter about
\u sequences; no input used here contains escapes). -/

/-- JSON whitespace. -/
def jsonWs (c : Char) : Bool :=
  decide (c = ' ') || decide (c = '\t') || decide (c = '\n') || decide (c = '\r')

/-- Drop leading JSON whitespace. -/
def skipWs : List Char → List Char
  | [] => []
  | c :: cs => if jsonWs c then skipWs cs else c :: cs

/-- Count leading decimal digits, returning count and remainder. -/
def spanDigits : List Char → Nat × List Char
  | [] => (0, [])
  | c :: cs =>
      if c.isDigit then
        let r := spanDigits cs
        (r.1 + 1, r.2)
      else (0, c :: cs)

/-- Parse a JSON number, returning the remainder on success. -/
def parseNumber (l : List Char) : Option (List Char) :=
  let l1 := match l with
    | '-' :: r => r
    | _ => l
  let d1 := spanDigits l1
  if d1.1 = 0 then none
  else
    let l2 := match d1.2 with
      | '.' :: r =>
          let d2 := spanDigits r
          if d2.1 = 0 then none else some d2.2
      | r => some r
    match l2 with
    | none => none
    | some l3 =>
        match l3 with
        | 'e' :: r | 'E' :: r =>
            let r1 := match r with
              | '+' :: r2 => r2
              | '-' :: r2 => r2
              | _ => r
            let d3 := spanDigits r1
            if d3.1 = 0 then none else some d3.2
        | _ => some l3

/-- Parse the rest of a JSON string after the opening quote. -/
def parseStringRest : List Char → Option (List Char)
  | [] => none
  | c :: cs =>
      if c = '"' then some cs
      else if c = '\\' then
        match cs with
        | [] => none
        | _ :: cs2 => parseStringRest cs2
      else parseStringRest cs

mutual

/-- Parse one JSON value, returning the remainder. -/
def parseValue : Nat → List Char → Option (List Char)
  | 0, _ => none
  | fuel + 1, l =>
      match skipWs l with
      | 'n' :: 'u' :: 'l' :: 'l' :: r => some r
      | 't' :: 'r' :: 'u' :: 'e' :: r => some r
      | 'f' :: 'a' :: 'l' :: 's' :: 'e' :: r => some r
      | '"' :: r => parseStringRest r
      | '[' :: r => parseArrayItems fuel (skipWs r)
      | '\x7b' :: r => parseObjectItems fuel (skipWs r)
      | l2 => parseNumber l2

/-- Parse array elements after the opening bracket (whitespace skipped). -/
def parseArrayItems : Nat → List Char → Option (List Char)
  | 0, _ => none
  | fuel + 1, l =>
      match l with
      | ']' :: r => some r
      | _ =>
          match parseValue fuel l with
          | none => none
          | some r =>
              match skipWs r with
              | ',' :: r2 => parseArrayItems fuel (skipWs r2)
              | ']' :: r2 => some r2
              | _ => none

/-- Parse object members after the opening brace (whitespace skipped). -/
def parseObjectItems : Nat → List Char → Option (List Char)
  | 0, _ => none
  | fuel + 1, l =>
      match l with
      | '\x7d' :: r => some r
      | _ => parseMembers fuel l

/-- Parse a nonempty comma-separated member list of a JSON object. -/
def parseMembers : Nat → List Char → Option (List Char)
  | 0, _ => none
  | fuel + 1, l =>
      match l with
      | '"' :: r =>
          match parseStringRest r with
          | none => none
          | some r2 =>
              match skipWs r2 with
              | ':' :: r3 =>
                  match parseValue fuel (skipWs r3) with
                  | none => none
                  | some r4 =>
                      match skipWs r4 with
                      | ',' :: r5 => parseMembers fuel (skipWs r5)
                      | '\x7d' :: r5 => some r5
                      | _ => none
              | _ => none
      | _ => none

end

/-- json.loads succeeds on the body: one JSON document followed only by
whitespace. -/
def json_loads_ok (s : String) : Bool :=
  match parseValue (s.length + 1) s.toList with
  | some r => (skipWs r).isEmpty
  | none => false

/-! ### Ingress handler (src/server.py handle_post_message, lines 81-110) -/

/-- An HTTP response as the handler builds it. -/
structure HttpResponse where
  status : Nat
  body : String
deriving DecidableEq, Repr

/-- The submit request: the optional session_id query parameter and the raw
body. -/
structure PostRequest where
  session_id : Option String
  body : String

/-- Starlette-level classification of a status code. -/
def is_client_error (s : Nat) : Bool := decide (400 ≤ s ∧ s < 500)

/-- src/server.py handle_post_message.  A missing or falsy (empty)
session_id parameter yields 400; a session_id that UUID(hex=...) rejects
yields 400; then the body is parsed with json.loads and the item
(str(session_id), microsecond timestamp, message) is put into the table and
202 returned.  Any exception inside the try block — including the
json.loads failure on a malformed body — is caught by the blanket handler
and returned as a 500 with str(e) as body (modelled with a fixed text). -/
def handle_post_message (req : PostRequest) (now_micros : Nat) (store : List MRecord) :
    HttpResponse × List MRecord :=
  match req.session_id with
  | none => (⟨400, "session_id required"⟩, store)
  | some p =>
      if p.isEmpty then (⟨400, "session_id required"⟩, store)
      else
        match uuidParse p with
        | none => (⟨400, "Invalid session_id"⟩, store)
        | some u =>
            if json_loads_ok req.body then
              (⟨202, "Accepted"⟩,
                put_item store ⟨uuid_str u, now_micros, req.body⟩)
            else (⟨500, "json decode error"⟩, store)

/-! ### Stream-open validation (src/server.py connect_sse, lines 112-137) -/

/-- Outcome of the validation prelude of connect_sse: either a raised
ValueError (the code comments note it surfaces as a 500 or a dropped
connection, not a 400) or the parsed session id. -/
inductive ConnectResult where
  | raised (msg : String)
  | proceed (sid : List Char)
deriving DecidableEq, Repr

/-- src/server.py connect_sse lines 117-133: read session_id from the query
string; if missing or falsy raise ValueError; if UUID(session_id_val) fails
raise ValueError; otherwise proceed.  No store operation occurs anywhere in
this prelude. -/
def connect_sse_validate (qs_session : Option String) : ConnectResult :=
  match qs_session with
  | none => .raised "session_id query parameter is required"
  | some v =>
      if v.isEmpty then .raised "session_id query parameter is required"
      else
        match uuidParse v with
        | none => .raised "Invalid session_id format"
        | some u => .proceed u

/-- The validation prelude with the store threaded through, making explicit
that it performs no store access: the store is returned unchanged on every
path. -/
def connect_sse_prelude (qs_session : Option String) (store : List MRecord) :
    ConnectResult × List MRecord :=
  (connect_sse_validate qs_session, store)

/-- HTTP status the client observes: Starlette turns the unhandled
ValueError raised by connect_sse into a 500 server-error response (as the
code comment on lines 124-127 itself records); a validated open starts the
200 event stream. -/
def response_status : ConnectResult → Nat
  | .raised _ => 500
  | .proceed _ => 200

/-! ### Poll loop tick (src/server.py poller_loop, lines 141-194) -/

/-- src/server.py line 145. -/
def INACTIVITY_TIMEOUT : Nat := 10

/-- The loop-local state of poller_loop: last_timestamp (the cursor) and
last_activity (seconds). -/
structure PollState where
  last_timestamp : Nat
  last_activity : Nat
deriving DecidableEq, Repr

/-- What one tick of poller_loop produces. -/
structure TickResult where
  newState : PollState
  delivered : List String
  stopped : Bool
  storeAfter : List MRecord
deriving DecidableEq, Repr

/-- The for-loop of poller_loop lines 178-187: for each item, first advance
last_timestamp to the max of itself and the item timestamp, then attempt to
decode and forward the message; a decode (or send) failure is caught, logged
and skipped.  Returns the final cursor and the forwarded messages. -/
def poll_items_step (decode : String → Bool) :
    List MRecord → Nat → List String → Nat × List String
  | [], lt, acc => (lt, acc.reverse)
  | it :: rest, lt, acc =>
      let lt2 := max lt it.timestamp
      if decode it.message then poll_items_step decode rest lt2 (it.message :: acc)
      else poll_items_step decode rest lt2 acc

/-- One tick of poller_loop (lines 147-194).  If the elapsed time since
last_activity exceeds INACTIVITY_TIMEOUT, run cleanup_session, cancel the
task group and stop (a cleanup failure is caught and ignored before the
cancel; cancellation is not modelled beyond stopping).  Otherwise query the
page of items past the cursor, reset last_activity to now when the page is
nonempty (before any decoding), then run the per-item loop.  decode stands
for JSONRPCMessage.model_validate_json plus the stream send, the parts of
the tick supplied by the mcp library. -/
def poller_tick (decode : String → Bool) (psz : Nat) (sid : String) (now : Nat)
    (st : PollState) (store : List MRecord) : TickResult :=
  if INACTIVITY_TIMEOUT < now - st.last_activity then
    { newState := st, delivered := [], stopped := true,
      storeAfter := cleanup_session psz sid store }
  else
    let items := query_items psz sid st.last_timestamp store
    let act := if items.isEmpty then st.last_activity else now
    let r := poll_items_step decode items st.last_timestamp []
    { newState := { last_timestamp := r.1, last_activity := act },
      delivered := r.2, stopped := false, storeAfter := store }

/-! ### Teardown paths and cleanup invocations (src/server.py lines 141-250)

The session has two tasks under one task group: poller_loop and
run_response.  Tracing every teardown trigger through the code:

* inactivity timeout: poller_loop lines 154-165 call cleanup_session
  (line 159), then tg.cancel_scope.cancel(); the cancellation aborts
  run_response, whose finally block (lines 224-242) runs inside
  CancelScope(shield=True) and calls cleanup_session again (line 237) —
  two invocations;
* client disconnect or an EventSourceResponse error: run_response leaves the
  try and its finally calls cleanup_session once; the poller is then
  cancelled by the connect_sse finally (line 250) without reaching its own
  cleanup call — one invocation;
* engine (mcp_server.run) completion or error: connect_sse exits, its
  finally cancels the group, run_response is cancelled and its shielded
  finally calls cleanup_session once — one invocation;
* external cancellation of the whole request task: same shielded finally,
  one invocation; the poller is cancelled inside its sleep or query.

There is no one-shot latch deduplicating the calls. -/

/-- The four teardown triggers of a session. -/
inductive TeardownTrigger where
  | inactivityTimeout
  | clientDisconnect
  | engineExit
  | externalCancel
deriving DecidableEq, Repr

/-- Number of cleanup_session invocations performed for a session whose
teardown was initiated by the given trigger, per the trace above. -/
def cleanup_invocations : TeardownTrigger → Nat
  | .inactivityTimeout => 2
  | .clientDisconnect => 1
  | .engineExit => 1
  | .externalCancel => 1

/-! ### MCPSSEResponse send wrapper (src/server.py lines 296-310) -/

/-- The ASGI messages the wrapper distinguishes: http.response.start with
its header list, and http.response.body with its payload. -/
inductive AsgiMessage where
  | start (headers : List (String × String))
  | body (data : String)
deriving DecidableEq, Repr

/-- ASCII lowercasing of a header name (str.lower of python on the ASCII
names involved), written over the character list so it evaluates. -/
def lowerStr (s : String) : String := String.mk (s.toList.map Char.toLower)

/-- Starlette MutableHeaders item assignment: remove every entry whose key
matches case-insensitively, then append the lowercased key with the new
value. -/
def headers_set (hs : List (String × String)) (k v : String) : List (String × String) :=
  hs.filter (fun p => !(decide (lowerStr p.1 = lowerStr k))) ++ [(lowerStr k, v)]

/-- Starlette Headers lookup: first entry whose key matches
case-insensitively. -/
def headers_get (hs : List (String × String)) (k : String) : Option String :=
  (hs.find? (fun p => decide (lowerStr p.1 = lowerStr k))).map Prod.snd

/-- The three header assignments of the http.response.start branch
(lines 300-303). -/
def set_stream_headers (hs : List (String × String)) : List (String × String) :=
  headers_set
    (headers_set (headers_set hs "X-Accel-Buffering" "no") "Transfer-Encoding" "chunked")
    "Content-Type" "text/event-stream"

/-- The injected filler (line 308): a comment-style line of 2 + 65536 + 2
bytes. -/
def sse_padding : String :=
  String.mk (':' :: ' ' :: (List.replicate 65536 ' ' ++ ['\n', '\n']))

/-- One step of send_wrapper: on http.response.start set the streaming
headers (the padding flag is untouched); on http.response.body, if the
padding flag is unset, set it and prepend the filler to the payload,
otherwise pass the payload through. -/
def wrap_message (padding_sent : Bool) : AsgiMessage → Bool × AsgiMessage
  | .start hs => (padding_sent, .start (set_stream_headers hs))
  | .body d =>
      if padding_sent then (true, .body d)
      else (true, .body (sse_padding ++ d))

/-- Run send_wrapper over the sequence of ASGI messages of one connection,
threading the padding flag (a fresh MCPSSEResponse instance, hence an unset
flag, is created per connection by handle_sse). -/
def send_wrapper_run : Bool → List AsgiMessage → List AsgiMessage
  | _, [] => []
  | ps, m :: ms =>
      let r := wrap_message ps m
      r.2 :: send_wrapper_run r.1 ms

/-- The body payloads of a message sequence, in order. -/
def body_datas : List AsgiMessage → List String
  | [] => []
  | .body d :: ms => d :: body_datas ms
  | .start _ :: ms => body_datas ms

/-- The header lists of the start messages of a sequence, in order. -/
def start_headers : List AsgiMessage → List (List (String × String))
  | [] => []
  | .body _ :: ms => start_headers ms
  | .start hs :: ms => hs :: start_headers ms

theorem mem_insertByTs {x r : MRecord} {l : List MRecord} :
    x ∈ insertByTs r l ↔ x = r ∨ x ∈ l := by
  induction l with
  | nil => simp [insertByTs]
  | cons y ys ih =>
      simp only [insertByTs]
      split
      · simp
      · simp [ih]; tauto

theorem mem_sortByTs {x : MRecord} {l : List MRecord} :
    x ∈ sortByTs l ↔ x ∈ l := by
  induction l with
  | nil => simp [sortByTs]
  | cons y ys ih => simp [sortByTs, mem_insertByTs, ih]

theorem length_insertByTs (r : MRecord) (l : List MRecord) :
    (insertByTs r l).length = l.length + 1 := by
  induction l with
  | nil => simp [insertByTs]
  | cons y ys ih =>
      simp only [insertByTs]
      split <;> simp [ih]

theorem length_sortByTs (l : List MRecord) :
    (sortByTs l).length = l.length := by
  induction l with
  | nil => rfl
  | cons y ys ih => simp [sortByTs, length_insertByTs, ih]

theorem scan_pages_complete {psz : Nat} (hpsz : 0 < psz) :
    ∀ fuel l, l.length ≤ fuel → scan_pages psz fuel l = l := by
  intro fuel
  induction fuel with
  | zero =>
      intro l hl
      have hnil : l = [] := List.length_eq_zero.mp (Nat.le_zero.mp hl)
      subst hnil; rfl
  | succ n ih =>
      intro l hl
      cases l with
      | nil => rfl
      | cons x xs =>
          have hd : ((x :: xs).drop psz).length ≤ n := by
            rw [List.length_drop]
            simp only [List.length_cons] at hl ⊢
            omega
          show (x :: xs).take psz ++ scan_pages psz n ((x :: xs).drop psz) = x :: xs
          rw [ih _ hd, List.take_append_drop]

theorem mem_session_records {r : MRecord} {sid : String} {store : List MRecord} :
    r ∈ session_records sid store ↔ r ∈ store ∧ r.session_id = sid := by
  simp [session_records, mem_sortByTs, List.mem_filter]

theorem session_records_full_page {psz : Nat} (hpsz : 0 < psz) (sid : String)
    (store : List MRecord) :
    scan_pages psz (store.length + 1) (session_records sid store) =
      session_records sid store := by
  apply scan_pages_complete hpsz
  rw [session_records, length_sortByTs]
  exact Nat.le_succ_of_le (List.length_filter_le _ _)

theorem cleanup_session_eq_filter {psz : Nat} (hpsz : 0 < psz) (sid : String)
    (store : List MRecord) :
    cleanup_session psz sid store =
      store.filter (fun r => !(decide (r.session_id = sid))) := by
  unfold cleanup_session
  rw [session_records_full_page hpsz]
  by_cases h : (session_records sid store).isEmpty = true
  · simp only [h, if_true]
    have hmem : ∀ r ∈ store, r.session_id ≠ sid := by
      intro r hr hrs
      have hm : r ∈ session_records sid store := mem_session_records.mpr ⟨hr, hrs⟩
      rw [List.isEmpty_iff] at h
      simp [h] at hm
    symm
    rw [List.filter_eq_self]
    intro a ha
    simp [hmem a ha]
  · simp only [h, if_false]
    apply List.filter_congr
    intro r hr
    have key : (session_records sid store).any
        (fun i => decide (i.session_id = r.session_id) && decide (i.timestamp = r.timestamp))
        = decide (r.session_id = sid) := by
      rw [Bool.eq_iff_iff]
      simp only [List.any_eq_true, Bool.and_eq_true, decide_eq_true_eq, mem_session_records]
      constructor
      · rintro ⟨i, ⟨hi, his⟩, he1, he2⟩
        rw [← he1]; exact his
      · intro hs
        exact ⟨r, ⟨hr, hs⟩, rfl, rfl⟩
    simp only [key]

theorem poll_items_step_cursor (decode : String → Bool) :
    ∀ (items : List MRecord) (lt : Nat) (acc : List String),
      (poll_items_step decode items lt acc).1 =
        items.foldl (fun a r => max a r.timestamp) lt := by
  intro items
  induction items with
  | nil => intro lt acc; rfl
  | cons it rest ih =>
      intro lt acc
      simp only [poll_items_step, List.foldl]
      split <;> exact ih _ _

theorem poll_items_step_delivered (decode : String → Bool) :
    ∀ (items : List MRecord) (lt : Nat) (acc : List String),
      (poll_items_step decode items lt acc).2 =
        acc.reverse ++ (items.filter (fun r => decode r.message)).map MRecord.message := by
  intro items
  induction items with
  | nil => intro lt acc; simp [poll_items_step]
  | cons it rest ih =>
      intro lt acc
      cases hd : decode it.message with
      | true => simp [poll_items_step, hd, ih]
      | false => simp [poll_items_step, hd, ih]

theorem foldl_max_init_le :
    ∀ (l : List MRecord) (a : Nat), a ≤ l.foldl (fun x r => max x r.timestamp) a := by
  intro l
  induction l with
  | nil => intro a; simp
  | cons it rest ih =>
      intro a
      exact le_trans (le_max_left a it.timestamp) (ih (max a it.timestamp))

theorem mem_le_foldl_max {r : MRecord} :
    ∀ (l : List MRecord) (a : Nat), r ∈ l → r.timestamp ≤ l.foldl (fun x r => max x r.timestamp) a := by
  intro l
  induction l with
  | nil => intro a h; cases h
  | cons it rest ih =>
      intro a h
      rcases List.mem_cons.mp h with h | h
      · subst h
        exact le_trans (le_max_right a r.timestamp) (foldl_max_init_le rest _)
      · exact ih _ h

theorem mem_query_items {r : MRecord} {psz : Nat} {sid : String} {c : Nat}
    {store : List MRecord} (h : r ∈ query_items psz sid c store) :
    r ∈ store ∧ r.session_id = sid ∧ c < r.timestamp := by
  unfold query_items at h
  have h2 := List.take_subset _ _ h
  rw [mem_sortByTs, List.mem_filter] at h2
  obtain ⟨hmem, hp⟩ := h2
  simp only [Bool.and_eq_true, decide_eq_true_eq] at hp
  exact ⟨hmem, hp.1, hp.2⟩

/-- C6: on a poll tick that is not an inactivity teardown, a decode failure
only removes the record from the forwarded messages — the tick does not stop
the session and does not touch the store — while the cursor still advances
to the maximum position seen in the batch, so no record of this batch (in
particular no poison record) is contained in the batch a later tick would
fetch at the advanced cursor. -/
theorem C6_poison_skipped_cursor_advanced (decode : String → Bool) (psz : Nat)
    (sid : String) (now : Nat) (st : PollState) (store : List MRecord)
    (hact : ¬ INACTIVITY_TIMEOUT < now - st.last_activity) :
    (poller_tick decode psz sid now st store).stopped = false ∧
    (poller_tick decode psz sid now st store).storeAfter = store ∧
    (poller_tick decode psz sid now st store).delivered =
      ((query_items psz sid st.last_timestamp store).filter
        (fun r => decode r.message)).map MRecord.message ∧
    (poller_tick decode psz sid now st store).newState.last_timestamp =
      (query_items psz sid st.last_timestamp store).foldl
        (fun a r => max a r.timestamp) st.last_timestamp ∧
    (query_items psz sid st.last_timestamp store).all
      (fun r => !(decide (r ∈ query_items psz sid
        (poller_tick decode psz sid now st store).newState.last_timestamp store))) = true := by
  simp only [poller_tick, if_neg hact]
  refine ⟨trivial, trivial, ?_, ?_, ?_⟩
  · rw [poll_items_step_delivered]
    simp
  · exact poll_items_step_cursor decode _ _ _
  · rw [List.all_eq_true]
    intro r hr
    simp only [Bool.not_eq_true', decide_eq_false_iff_not]
    intro hmem
    have h1 : r.timestamp ≤ (poll_items_step decode
        (query_items psz sid st.last_timestamp store) st.last_timestamp []).1 := by
      rw [poll_items_step_cursor]
      exact mem_le_foldl_max _ _ hr
    have h2 := (mem_query_items hmem).2.2
    omega

/-- C10: a tick whose query returns a nonempty batch resets last_activity to
the current time regardless of the decoder — in particular a batch of
records that all fail to decode still resets the inactivity timer while
forwarding nothing. -/
theorem C10_nonempty_batch_resets_activity (decode : String → Bool) (psz : Nat)
    (sid : String) (now : Nat) (st : PollState) (store : List MRecord)
    (hact : ¬ INACTIVITY_TIMEOUT < now - st.last_activity)
    (hne : (query_items psz sid st.last_timestamp store).isEmpty = false) :
    (poller_tick decode psz sid now st store).newState.last_activity = now ∧
    (poller_tick decode psz sid now st store).stopped = false ∧
    (poller_tick (fun _ => false) psz sid now st store).newState.last_activity = now ∧
    (poller_tick (fun _ => false) psz sid now st store).delivered = [] := by
  simp only [poller_tick, if_neg hact]
  refine ⟨by simp [hne], trivial, by simp [hne], ?_⟩
  rw [poll_items_step_delivered]
  simp

/-- C8: a tick whose elapsed idle time exceeds INACTIVITY_TIMEOUT stops the
loop, forwards nothing, and leaves the store holding zero records for the
session. -/
theorem C8_idle_session_torn_down (decode : String → Bool) (psz : Nat)
    (sid : String) (now : Nat) (st : PollState) (store : List MRecord)
    (hpsz : 0 < psz) (hidle : INACTIVITY_TIMEOUT < now - st.last_activity) :
    (poller_tick decode psz sid now st store).stopped = true ∧
    (poller_tick decode psz sid now st store).delivered = [] ∧
    (poller_tick decode psz sid now st store).storeAfter =
      store.filter (fun r => !(decide (r.session_id = sid))) ∧
    (poller_tick decode psz sid now st store).storeAfter.filter
      (fun r => decide (r.session_id = sid)) = [] := by
  have hc := cleanup_session_eq_filter hpsz sid store
  simp only [poller_tick, if_pos hidle]
  refine ⟨trivial, trivial, hc, ?_⟩
  rw [hc, List.filter_filter]
  simp

/-- C7 (amended to nothing — as stated): cleanup_session is idempotent, and
on a store already holding no records of the session it is the identity. -/
theorem C7_cleanup_idempotent (psz : Nat) (sid : String) (store : List MRecord)
    (hpsz : 0 < psz) :
    cleanup_session psz sid (cleanup_session psz sid store) = cleanup_session psz sid store ∧
    cleanup_session psz sid (store.filter (fun r => !(decide (r.session_id = sid)))) =
      store.filter (fun r => !(decide (r.session_id = sid))) := by
  constructor
  · rw [cleanup_session_eq_filter hpsz, cleanup_session_eq_filter hpsz, List.filter_filter]
    simp
  · rw [cleanup_session_eq_filter hpsz, List.filter_filter]
    simp

/-- C1 counterexample: on the inactivity-timeout path cleanup_session is
invoked twice, not exactly once. -/
theorem C1_counterexample :
    cleanup_invocations TeardownTrigger.inactivityTimeout = 2 ∧
    cleanup_invocations TeardownTrigger.inactivityTimeout ≠ 1 := by decide

/-- C1 amended: every teardown trigger leads to at least one cleanup
invocation; the inactivity-timeout path performs two; the second invocation
is harmless because cleanup_session is idempotent. -/
theorem C1_cleanup_at_least_once (psz : Nat) (sid : String) (store : List MRecord)
    (hpsz : 0 < psz) :
    1 ≤ cleanup_invocations TeardownTrigger.inactivityTimeout ∧
    1 ≤ cleanup_invocations TeardownTrigger.clientDisconnect ∧
    1 ≤ cleanup_invocations TeardownTrigger.engineExit ∧
    1 ≤ cleanup_invocations TeardownTrigger.externalCancel ∧
    cleanup_invocations TeardownTrigger.inactivityTimeout = 2 ∧
    cleanup_session psz sid (cleanup_session psz sid store) = cleanup_session psz sid store := by
  refine ⟨by decide, by decide, by decide, by decide, by decide, ?_⟩
  rw [cleanup_session_eq_filter hpsz, cleanup_session_eq_filter hpsz, List.filter_filter]
  simp

/-- C3: wipe_table fails to empty a store larger than one scan page — with
page size 1 and two records, one record survives — whereas the paginated
cleanup_session removes every record of a session regardless of page size. -/
theorem C3_wipe_table_leaves_records :
    wipe_table 1 [⟨"a", 1, "x"⟩, ⟨"b", 2, "y"⟩] = [⟨"b", 2, "y"⟩] ∧
    wipe_table 1 [⟨"a", 1, "x"⟩, ⟨"b", 2, "y"⟩] ≠ [] ∧
    cleanup_session 1 "a" [⟨"a", 1, "x"⟩, ⟨"a", 2, "y"⟩] = [] := by decide

theorem find_filter_removed (hs : List (String × String)) (k q : String)
    (hq : lowerStr q = lowerStr k) :
    (hs.filter (fun p => !(decide (lowerStr p.1 = lowerStr k)))).find?
      (fun p => decide (lowerStr p.1 = lowerStr q)) = none := by
  rw [List.find?_eq_none]
  intro x hx
  rw [List.mem_filter] at hx
  simp only [Bool.not_eq_true', decide_eq_false_iff_not] at hx
  simp only [decide_eq_true_eq, hq]
  exact hx.2

theorem headers_get_set_eq (hs : List (String × String)) (k v q : String)
    (h1 : lowerStr q = lowerStr k) (h2 : lowerStr (lowerStr k) = lowerStr k) :
    headers_get (headers_set hs k v) q = some v := by
  unfold headers_get headers_set
  rw [List.find?_append, find_filter_removed hs k q h1]
  simp [List.find?, h2, h1]

theorem headers_get_set_ne (hs : List (String × String)) (k v q : String)
    (h1 : lowerStr q ≠ lowerStr k) (h2 : lowerStr (lowerStr k) = lowerStr k) :
    headers_get (headers_set hs k v) q = headers_get hs q := by
  unfold headers_get headers_set
  rw [List.find?_append]
  have hfil : (hs.filter (fun p => !(decide (lowerStr p.1 = lowerStr k)))).find?
      (fun p => decide (lowerStr p.1 = lowerStr q)) =
      hs.find? (fun p => decide (lowerStr p.1 = lowerStr q)) := by
    induction hs with
    | nil => rfl
    | cons x xs ih =>
        by_cases hx : lowerStr x.1 = lowerStr k
        · have hxq : decide (lowerStr x.1 = lowerStr q) = false := by
            simp only [decide_eq_false_iff_not, hx]
            intro hcontra
            exact h1 hcontra.symm
          simp only [List.filter_cons, hx, decide_True, Bool.not_true, if_neg]
          rw [List.find?]
          simp only [hxq]
          exact ih
        · simp only [List.filter_cons, hx, decide_False, Bool.not_false, if_pos]
          rw [List.find?, List.find?]
          cases hxq : decide (lowerStr x.1 = lowerStr q) with
          | true => rfl
          | false => exact ih
  rw [hfil]
  cases hfind : hs.find? (fun p => decide (lowerStr p.1 = lowerStr q)) with
  | some x => rfl
  | none =>
      simp only [Option.none_orElse, List.find?]
      have hkq : decide (lowerStr (lowerStr k) = lowerStr q) = false := by
        simp only [decide_eq_false_iff_not, h2]
        intro hcontra
        exact h1 hcontra.symm
      simp [hkq]

theorem body_datas_run_true (ms : List AsgiMessage) :
    body_datas (send_wrapper_run true ms) = body_datas ms := by
  induction ms with
  | nil => rfl
  | cons m rest ih =>
      cases m with
      | start hs => simpa [send_wrapper_run, wrap_message, body_datas] using ih
      | body d => simpa [send_wrapper_run, wrap_message, body_datas] using ih

theorem body_datas_run_false (msgs : List AsgiMessage) :
    body_datas (send_wrapper_run false msgs) =
      (match body_datas msgs with
       | [] => []
       | d :: ds => (sse_padding ++ d) :: ds) := by
  induction msgs with
  | nil => rfl
  | cons m rest ih =>
      cases m with
      | start hs => simpa [send_wrapper_run, wrap_message, body_datas] using ih
      | body d =>
          simp [send_wrapper_run, wrap_message, body_datas, body_datas_run_true]

theorem start_headers_run (ps : Bool) (ms : List AsgiMessage) :
    start_headers (send_wrapper_run ps ms) = (start_headers ms).map set_stream_headers := by
  induction ms generalizing ps with
  | nil => rfl
  | cons m rest ih =>
      cases m with
      | start hs => simp [send_wrapper_run, wrap_message, start_headers, ih]
      | body d =>
          cases ps <;> simp [send_wrapper_run, wrap_message, start_headers, ih]

theorem sse_padding_length : sse_padding.length = 65540 := by
  have h : sse_padding.length = sse_padding.toList.length := rfl
  rw [h]
  show (':' :: ' ' :: (List.replicate 65536 ' ' ++ ['\n', '\n'])).length = 65540
  rw [List.length_cons, List.length_cons, List.length_append, List.length_replicate]
  rfl

/-- C9: over the ASGI message sequence of one connection (fresh padding
flag), the first body write is prepended with the filler and no later body
write is touched; every start message leaves with the three streaming
headers set; the filler is a comment-style line of 65540 bytes, at least
64 KiB of it padding. -/
theorem C9_first_body_padded_once (msgs : List AsgiMessage) :
    body_datas (send_wrapper_run false msgs) =
      (match body_datas msgs with
       | [] => []
       | d :: ds => (sse_padding ++ d) :: ds) ∧
    start_headers (send_wrapper_run false msgs) =
      (start_headers msgs).map set_stream_headers ∧
    (∀ hs : List (String × String),
      headers_get (set_stream_headers hs) "content-type" = some "text/event-stream" ∧
      headers_get (set_stream_headers hs) "transfer-encoding" = some "chunked" ∧
      headers_get (set_stream_headers hs) "x-accel-buffering" = some "no") ∧
    sse_padding.length = 65540 ∧
    65536 ≤ sse_padding.length ∧
    sse_padding.toList.head? = some ':' := by
  refine ⟨body_datas_run_false msgs, start_headers_run false msgs, ?_,
    sse_padding_length, by rw [sse_padding_length]; omega, rfl⟩
  intro hs
  refine ⟨?_, ?_, ?_⟩
  · exact headers_get_set_eq _ _ _ _ (by decide) (by decide)
  · unfold set_stream_headers
    rw [headers_get_set_ne _ _ _ _ (by decide) (by decide)]
    exact headers_get_set_eq _ _ _ _ (by decide) (by decide)
  · unfold set_stream_headers
    rw [headers_get_set_ne _ _ _ _ (by decide) (by decide)]
    rw [headers_get_set_ne _ _ _ _ (by decide) (by decide)]
    exact headers_get_set_eq _ _ _ _ (by decide) (by decide)

theorem uuidParse_empty : uuidParse "" = none := rfl

theorem isEmpty_false_of_uuidParse {p : String} {u : List Char}
    (hu : uuidParse p = some u) : p.isEmpty = false := by
  cases hp : p.isEmpty
  · rfl
  · exfalso
    have hpe : p = "" := (String.isEmpty_iff p).mp hp
    rw [hpe, uuidParse_empty] at hu
    cases hu

theorem put_item_fresh {store : List MRecord} {it : MRecord}
    (h : ∀ r ∈ store, ¬(r.session_id = it.session_id ∧ r.timestamp = it.timestamp)) :
    put_item store it = it :: store := by
  unfold put_item
  congr 1
  rw [List.filter_eq_self]
  intro a ha
  simp only [Bool.not_eq_true', Bool.and_eq_false_iff, decide_eq_false_iff_not]
  have := h a ha
  tauto

/-- C2 counterexample: two accepted submissions in the same microsecond
collide on the position; the second overwrites the first, whose record is
lost from the store. -/
theorem C2_counterexample :
    (handle_post_message ⟨some "12345678123456781234567812345678", "1"⟩ 5 []).1.status = 202 ∧
    (handle_post_message ⟨some "12345678123456781234567812345678", "2"⟩ 5
      (handle_post_message ⟨some "12345678123456781234567812345678", "1"⟩ 5 []).2).1.status = 202 ∧
    (handle_post_message ⟨some "12345678123456781234567812345678", "2"⟩ 5
      (handle_post_message ⟨some "12345678123456781234567812345678", "1"⟩ 5 []).2).2 =
      [⟨"12345678-1234-5678-1234-567812345678", 5, "2"⟩] := by decide

/-- C2 amended: the position of an accepted submission is the microsecond
wall-clock reading at write time; when every record the session already
holds has a strictly smaller timestamp, the append preserves all existing
records and adds a record whose position is strictly greater. -/
theorem C2_append_fresh_clock (p body : String) (u : List Char) (now : Nat)
    (store : List MRecord)
    (hu : uuidParse p = some u) (hb : json_loads_ok body = true)
    (hfresh : store.all
      (fun r => !(decide (r.session_id = uuid_str u)) || decide (r.timestamp < now)) = true) :
    handle_post_message ⟨some p, body⟩ now store =
      (⟨202, "Accepted"⟩, ⟨uuid_str u, now, body⟩ :: store) := by
  have hne := isEmpty_false_of_uuidParse hu
  simp only [handle_post_message, hne, Bool.false_eq_true, if_false, hu, hb, if_true]
  congr 1
  apply put_item_fresh
  intro r hr hcontra
  have hc1 : r.session_id = uuid_str u := hcontra.1
  have hc2 : r.timestamp = now := hcontra.2
  have hall := (List.all_eq_true.mp hfresh) r hr
  simp only [Bool.or_eq_true, Bool.not_eq_true', decide_eq_false_iff_not,
    decide_eq_true_eq] at hall
  rcases hall with h | h
  · exact h hc1
  · omega

/-- C4 counterexample: a malformed body on a well-formed session id yields
status 500 — a server error, not a client error (the json.loads failure is
caught by the blanket except handler) — with no store write. -/
theorem C4_counterexample :
    handle_post_message ⟨some "12345678123456781234567812345678", "notjson"⟩ 7 [] =
      (⟨500, "json decode error"⟩, []) ∧
    is_client_error 500 = false := by decide

/-- C4 amended: a malformed body yields a server-error status (500) and no
store write; client-error statuses (400) are returned only for a missing,
empty or malformed session identifier, also with no store write; a
well-formed request is accepted with 202. -/
theorem C4_malformed_body_is_server_error (p q body good : String) (u w : List Char)
    (now : Nat) (store : List MRecord)
    (hu : uuidParse p = some u) (hbad : json_loads_ok body = false)
    (hq : uuidParse q = none) (hqe : q.isEmpty = false)
    (hw : uuidParse good = some w) (hg : json_loads_ok good = true) :
    handle_post_message ⟨some p, body⟩ now store = (⟨500, "json decode error"⟩, store) ∧
    is_client_error 500 = false ∧
    handle_post_message ⟨none, body⟩ now store = (⟨400, "session_id required"⟩, store) ∧
    handle_post_message ⟨some q, body⟩ now store = (⟨400, "Invalid session_id"⟩, store) ∧
    is_client_error 400 = true ∧
    handle_post_message ⟨some good, good⟩ now store =
      (⟨202, "Accepted"⟩, put_item store ⟨uuid_str w, now, good⟩) := by
  have hne := isEmpty_false_of_uuidParse hu
  have hge := isEmpty_false_of_uuidParse hw
  refine ⟨?_, by decide, rfl, ?_, by decide, ?_⟩
  · simp only [handle_post_message, hne, Bool.false_eq_true, if_false, hu, hbad]
  · simp only [handle_post_message, hqe, Bool.false_eq_true, if_false, hq]
  · simp only [handle_post_message, hge, Bool.false_eq_true, if_false, hw, hg, if_true]

/-- C5 counterexample: a stream-open request without a session identifier is
rejected by a raised ValueError that surfaces as status 500 — a server
error, not a client error — though with zero store writes. -/
theorem C5_counterexample :
    response_status (connect_sse_validate none) = 500 ∧
    is_client_error (response_status (connect_sse_validate none)) = false ∧
    connect_sse_prelude none [] =
      (ConnectResult.raised "session_id query parameter is required", []) := by decide

/-- C5 amended: a stream-open request with a missing or malformed session
identifier is rejected before any store access and performs zero store
writes, but via a raised ValueError that surfaces as a 500 server error,
not a client error. -/
theorem C5_invalid_open_rejected_pre_store (v : String) (store : List MRecord)
    (hbad : uuidParse v = none) (hne : v.isEmpty = false) :
    connect_sse_prelude none store =
      (.raised "session_id query parameter is required", store) ∧
    connect_sse_prelude (some v) store = (.raised "Invalid session_id format", store) ∧
    response_status (.raised "Invalid session_id format") = 500 ∧
    is_client_error 500 = false := by
  refine ⟨rfl, ?_, rfl, by decide⟩
  simp only [connect_sse_prelude, connect_sse_validate, hne, Bool.false_eq_true,
    if_false, hbad]

theorem C1_witness :
    1 ≤ cleanup_invocations TeardownTrigger.inactivityTimeout ∧
    1 ≤ cleanup_invocations TeardownTrigger.clientDisconnect ∧
    1 ≤ cleanup_invocations TeardownTrigger.engineExit ∧
    1 ≤ cleanup_invocations TeardownTrigger.externalCancel ∧
    cleanup_invocations TeardownTrigger.inactivityTimeout = 2 ∧
    cleanup_session 1 "a" (cleanup_session 1 "a" [⟨"a", 1, "x"⟩, ⟨"b", 2, "y"⟩]) =
      cleanup_session 1 "a" [⟨"a", 1, "x"⟩, ⟨"b", 2, "y"⟩] :=
  C1_cleanup_at_least_once 1 "a" [⟨"a", 1, "x"⟩, ⟨"b", 2, "y"⟩] (by decide)

theorem C2_witness :
    handle_post_message ⟨some "12345678123456781234567812345678", "2"⟩ 6
        [⟨"12345678-1234-5678-1234-567812345678", 5, "1"⟩] =
      (⟨202, "Accepted"⟩,
        ⟨uuid_str "12345678123456781234567812345678".toList, 6, "2"⟩ ::
          [⟨"12345678-1234-5678-1234-567812345678", 5, "1"⟩]) :=
  C2_append_fresh_clock "12345678123456781234567812345678" "2"
    "12345678123456781234567812345678".toList 6
    [⟨"12345678-1234-5678-1234-567812345678", 5, "1"⟩]
    (by decide) (by decide) (by decide)

theorem C4_witness :
    handle_post_message ⟨some "12345678123456781234567812345678", "notjson"⟩ 7 [] =
      (⟨500, "json decode error"⟩, []) ∧
    is_client_error 500 = false ∧
    handle_post_message ⟨none, "notjson"⟩ 7 [] = (⟨400, "session_id required"⟩, []) ∧
    handle_post_message ⟨some "zzz", "notjson"⟩ 7 [] = (⟨400, "Invalid session_id"⟩, []) ∧
    is_client_error 400 = true ∧
    handle_post_message
        ⟨some "12345678123456781234567812345678", "12345678123456781234567812345678"⟩ 7 [] =
      (⟨202, "Accepted"⟩,
        put_item [] ⟨uuid_str "12345678123456781234567812345678".toList, 7,
          "12345678123456781234567812345678"⟩) :=
  C4_malformed_body_is_server_error "12345678123456781234567812345678" "zzz" "notjson"
    "12345678123456781234567812345678"
    "12345678123456781234567812345678".toList "12345678123456781234567812345678".toList 7 []
    (by decide) (by decide) (by decide) (by decide) (by decide) (by decide)

theorem C5_witness :
    connect_sse_prelude none [] =
      (.raised "session_id query parameter is required", []) ∧
    connect_sse_prelude (some "zzz") [] = (.raised "Invalid session_id format", []) ∧
    response_status (.raised "Invalid session_id format") = 500 ∧
    is_client_error 500 = false :=
  C5_invalid_open_rejected_pre_store "zzz" [] (by decide) (by decide)

theorem C6_witness :
    (poller_tick json_loads_ok 100 "s" 1 ⟨0, 0⟩
      [⟨"s", 3, "notjson"⟩, ⟨"s", 5, "1"⟩]).stopped = false ∧
    (poller_tick json_loads_ok 100 "s" 1 ⟨0, 0⟩
      [⟨"s", 3, "notjson"⟩, ⟨"s", 5, "1"⟩]).storeAfter =
        [⟨"s", 3, "notjson"⟩, ⟨"s", 5, "1"⟩] ∧
    (poller_tick json_loads_ok 100 "s" 1 ⟨0, 0⟩
      [⟨"s", 3, "notjson"⟩, ⟨"s", 5, "1"⟩]).delivered =
      ((query_items 100 "s" 0 [⟨"s", 3, "notjson"⟩, ⟨"s", 5, "1"⟩]).filter
        (fun r => json_loads_ok r.message)).map MRecord.message ∧
    (poller_tick json_loads_ok 100 "s" 1 ⟨0, 0⟩
      [⟨"s", 3, "notjson"⟩, ⟨"s", 5, "1"⟩]).newState.last_timestamp =
      (query_items 100 "s" 0 [⟨"s", 3, "notjson"⟩, ⟨"s", 5, "1"⟩]).foldl
        (fun a r => max a r.timestamp) 0 ∧
    (query_items 100 "s" 0 [⟨"s", 3, "notjson"⟩, ⟨"s", 5, "1"⟩]).all
      (fun r => !(decide (r ∈ query_items 100 "s"
        (poller_tick json_loads_ok 100 "s" 1 ⟨0, 0⟩
          [⟨"s", 3, "notjson"⟩, ⟨"s", 5, "1"⟩]).newState.last_timestamp
        [⟨"s", 3, "notjson"⟩, ⟨"s", 5, "1"⟩]))) = true :=
  C6_poison_skipped_cursor_advanced json_loads_ok 100 "s" 1 ⟨0, 0⟩
    [⟨"s", 3, "notjson"⟩, ⟨"s", 5, "1"⟩] (by decide)

theorem C7_witness :
    cleanup_session 1 "a" (cleanup_session 1 "a" [⟨"a", 1, "x"⟩, ⟨"b", 2, "y"⟩]) =
      cleanup_session 1 "a" [⟨"a", 1, "x"⟩, ⟨"b", 2, "y"⟩] ∧
    cleanup_session 1 "a"
        ([⟨"a", 1, "x"⟩, ⟨"b", 2, "y"⟩].filter (fun r => !(decide (r.session_id = "a")))) =
      [⟨"a", 1, "x"⟩, ⟨"b", 2, "y"⟩].filter (fun r => !(decide (r.session_id = "a"))) :=
  C7_cleanup_idempotent 1 "a" [⟨"a", 1, "x"⟩, ⟨"b", 2, "y"⟩] (by decide)

theorem C8_witness :
    (poller_tick json_loads_ok 1 "aa" 11 ⟨0, 0⟩ [⟨"aa", 1, "x"⟩]).stopped = true ∧
    (poller_tick json_loads_ok 1 "aa" 11 ⟨0, 0⟩ [⟨"aa", 1, "x"⟩]).delivered = [] ∧
    (poller_tick json_loads_ok 1 "aa" 11 ⟨0, 0⟩ [⟨"aa", 1, "x"⟩]).storeAfter =
      [⟨"aa", 1, "x"⟩].filter (fun r => !(decide (r.session_id = "aa"))) ∧
    (poller_tick json_loads_ok 1 "aa" 11 ⟨0, 0⟩ [⟨"aa", 1, "x"⟩]).storeAfter.filter
      (fun r => decide (r.session_id = "aa")) = [] :=
  C8_idle_session_torn_down json_loads_ok 1 "aa" 11 ⟨0, 0⟩ [⟨"aa", 1, "x"⟩]
    (by decide) (by decide)

theorem C10_witness :
    (poller_tick json_loads_ok 1 "s" 2 ⟨0, 0⟩ [⟨"s", 3, "notjson"⟩]).newState.last_activity = 2 ∧
    (poller_tick json_loads_ok 1 "s" 2 ⟨0, 0⟩ [⟨"s", 3, "notjson"⟩]).stopped = false ∧
    (poller_tick (fun _ => false) 1 "s" 2 ⟨0, 0⟩
      [⟨"s", 3, "notjson"⟩]).newState.last_activity = 2 ∧
    (poller_tick (fun _ => false) 1 "s" 2 ⟨0, 0⟩ [⟨"s", 3, "notjson"⟩]).delivered = [] :=
  C10_nonempty_batch_resets_activity json_loads_ok 1 "s" 2 ⟨0, 0⟩ [⟨"s", 3, "notjson"⟩]
    (by decide) (by decide)
